import Mathlib

/-!
Shallow embedding of `src/backend/server.js` (Express + Mongoose backend of the
indoor-media system): the Playlist / Media Item / Monitor data model, the media
upload pipeline (multer disk storage), and the route handlers the claims are
about.  Mongo ObjectIds and route parameters travel as strings; `Date.now()` is
a natural number of milliseconds.  The database and the `uploads/` directory
are modelled as one explicit `ServerState` record threaded through each
handler.
-/

namespace MidiaIndoor

/-- ObjectIds and route parameters are strings on the wire. -/
abbrev Id := String

/-- One entry of `playlistSchema.midias` (server.js lines 30-38): `name` and
`url` per the schema, plus the `_id` Mongoose gives every embedded
subdocument (compared via `_id.toString()` in the delete route, line 136). -/
structure MediaItem where
  id : Id
  name : String
  url : String
deriving DecidableEq

/-- A stored Playlist document (playlistSchema, server.js lines 30-38).
The schema declares `midias` as an array, so the field is always a list. -/
structure PlaylistDoc where
  id : Id
  name : Option String
  midias : List MediaItem
deriving DecidableEq

/-- A stored Monitor document.  monitorSchema (server.js lines 146-152)
declares exactly two paths: `name` and a single ObjectId reference
`playlist`.  There is no `playlists` array path in the schema. -/
structure MonitorDoc where
  id : Id
  name : Option String
  playlist : Option Id
deriving DecidableEq

/-- The backing MongoDB collections plus the contents of the `uploads/`
directory (the Media Store of the spec). -/
structure ServerState where
  playlists : List PlaylistDoc
  monitors : List MonitorDoc
  uploads : List String
deriving DecidableEq

/-- An HTTP response: status code, and the document payloads the handlers
send with `res.json`. -/
structure Response where
  status : Nat
  monitorBody : Option MonitorDoc
  midiasBody : Option (List MediaItem)
deriving DecidableEq

/-- `Playlist.findById(id)`: first (unique) document with the given `_id`. -/
def Playlist.findById (s : ServerState) (id : Id) : Option PlaylistDoc :=
  s.playlists.find? (fun p => p.id == id)

/-- `Monitor.findById(id)`. -/
def Monitor.findById (s : ServerState) (id : Id) : Option MonitorDoc :=
  s.monitors.find? (fun m => m.id == id)

/-- `playlist.save()` after mutating a fetched document: the stored document
with the same `_id` is replaced by the updated one. -/
def savePlaylist (s : ServerState) (p : PlaylistDoc) : ServerState :=
  { s with playlists := s.playlists.map (fun q => if q.id == p.id then p else q) }

/-- DELETE `/playlists/:id` (server.js lines 75-84):
`Playlist.findByIdAndDelete(id)` removes the document when present, then the
handler answers 200 unconditionally - the result of the delete is never
inspected. -/
def deletePlaylist (s : ServerState) (id : Id) : Response × ServerState :=
  (⟨200, none, none⟩,
   { s with playlists := s.playlists.filter (fun p => p.id != id) })

/-- Node `path.extname`, as used by the multer `filename` callback
(server.js line 92): the suffix of the name starting at its last dot; empty
when there is no dot, or when the only dot is the leading character. -/
def lastDotSuffix : List Char → Option (List Char)
  | [] => none
  | c :: cs =>
    match lastDotSuffix cs with
    | some suf => some suf
    | none => if c = '.' then some (c :: cs) else none

/-- Node `path.extname` on a bare file name. -/
def extname (name : String) : String :=
  match name.data with
  | [] => ""
  | _ :: cs =>
    match lastDotSuffix cs with
    | some suf => String.mk suf
    | none => ""

/-- The multer `diskStorage.filename` callback (server.js lines 91-93):
`Date.now() + path.extname(file.originalname)`.  The JS `number + string`
coercion renders the millisecond timestamp in decimal, which is `Nat.repr`. -/
def storageName (now : Nat) (originalname : String) : String :=
  Nat.repr now ++ extname originalname

/-- An uploaded file as the client sent it: only its original name matters to
the storage callback. -/
structure UploadedFile where
  originalname : String
deriving DecidableEq

/-- A file after multer's disk storage ran: the client's `originalname` plus
the `filename` chosen by the `filename` callback, already written under
`uploads/`. -/
structure StoredFile where
  originalname : String
  filename : String
deriving DecidableEq

/-- The multer middleware `upload.array('midias')` (server.js line 96,
applied on line 99): before the route handler runs, every uploaded file is
written to `uploads/` under the callback-chosen name.  Each file carries the
`Date.now()` value observed when it was written. -/
def multerStore (s : ServerState) (files : List (UploadedFile × Nat)) :
    List StoredFile × ServerState :=
  let stored := files.map
    (fun fi => StoredFile.mk fi.1.originalname (storageName fi.2 fi.1.originalname))
  (stored, { s with uploads := s.uploads ++ stored.map (fun f => f.filename) })

/-- The POST `/playlists/:id/midias` route handler body (server.js lines
99-123), after multer ran: 404 when the playlist id does not resolve,
otherwise append one `{name: originalname, url: '/uploads/' + filename}`
item per file (the ternary on line 115 is the concat branch, since the
schema makes `midias` always an array) and save.  Mongoose assigns each new
embedded item a fresh `_id` on save; those generated ids are the `newIds`
argument. -/
def uploadMidiasHandler (s : ServerState) (id : Id) (files : List StoredFile)
    (newIds : List Id) : Response × ServerState :=
  match Playlist.findById s id with
  | none => (⟨404, none, none⟩, s)
  | some playlist =>
    let midiasItems := (files.zip newIds).map
      (fun fi => MediaItem.mk fi.2 fi.1.originalname ("/uploads/" ++ fi.1.filename))
    let updated := { playlist with midias := playlist.midias ++ midiasItems }
    (⟨200, none, some updated.midias⟩, savePlaylist s updated)

/-- The full POST `/playlists/:id/midias` route: multer stores the files
first, then the handler body runs on the stored files. -/
def postMidias (s : ServerState) (id : Id) (files : List (UploadedFile × Nat))
    (newIds : List Id) : Response × ServerState :=
  let ms := multerStore s files
  uploadMidiasHandler ms.2 id ms.1 newIds

/-- DELETE `/playlists/:playlistId/midias/:midiaId` (server.js lines
126-144): 404 when the playlist is missing; otherwise keep exactly the
items whose `_id.toString()` differs from the `midiaId` parameter and save.
No filesystem call appears anywhere in the handler. -/
def deleteMidia (s : ServerState) (playlistId : Id) (midiaId : Id) :
    Response × ServerState :=
  match Playlist.findById s playlistId with
  | none => (⟨404, none, none⟩, s)
  | some playlist =>
    let updated :=
      { playlist with midias := playlist.midias.filter (fun m => m.id != midiaId) }
    (⟨200, none, some updated.midias⟩, savePlaylist s updated)

/-- POST `/monitores` (server.js lines 168-179): destructure `name` from the
body (absent field gives JS `undefined`, here `none`), build a document with
no `playlist` value, save it, answer 201 with the new document.  `newId` is
the ObjectId Mongoose generates. -/
def createMonitor (s : ServerState) (name : Option String) (newId : Id) :
    Response × ServerState :=
  let newMonitor : MonitorDoc := ⟨newId, name, none⟩
  (⟨201, some newMonitor, none⟩,
   { s with monitors := s.monitors ++ [newMonitor] })

/-- DELETE `/monitores/:id` (server.js lines 181-198):
`Monitor.findByIdAndDelete` either removes and returns the document (200
with it) or finds nothing (404). -/
def deleteMonitor (s : ServerState) (id : Id) : Response × ServerState :=
  match Monitor.findById s id with
  | none => (⟨404, none, none⟩, s)
  | some deletedMonitor =>
    (⟨200, some deletedMonitor, none⟩,
     { s with monitors := s.monitors.filter (fun m => m.id != id) })

/-- JS truthiness of the `playlistId` body field tested by `!playlistId`
(server.js line 206): an absent field is `undefined` and the empty string is
falsy too. -/
def isFalsy : Option String → Bool
  | none => true
  | some s => s.isEmpty

/-- Server.js line 218 reads `monitor.playlists`.  monitorSchema (lines
146-152) declares only `name` and `playlist`; `playlists` is not a schema
path, so a Mongoose document has no getter for it and the property read
yields JS `undefined` (`none` here) on every document. -/
def monitorPlaylistsRead (_ : MonitorDoc) : Option (List Id) :=
  none

/-- POST `/monitores/:monitorId/playlists` (server.js lines 201-238).
Guard first: missing/falsy `playlistId` answers 400 before any lookup.
Then `Monitor.findById`: 404 when absent.  Then line 218 calls
`monitor.playlists.includes(playlistId)`: `monitor.playlists` is `undefined`
(see `monitorPlaylistsRead`), so the `.includes` call raises a TypeError
which the surrounding try/catch converts into a 500 response, with nothing
saved.  The remaining branches transcribe lines 218-230 (duplicate answers
400; otherwise push and respond 200) but are unreachable, and even the push
would target a non-schema path that strict-mode `save()` would not
persist. -/
def linkPlaylist (s : ServerState) (monitorId : Id) (playlistId : Option Id) :
    Response × ServerState :=
  if isFalsy playlistId then (⟨400, none, none⟩, s)
  else
    match Monitor.findById s monitorId with
    | none => (⟨404, none, none⟩, s)
    | some monitor =>
      match monitorPlaylistsRead monitor with
      | none => (⟨500, none, none⟩, s)
      | some pls =>
        if pls.contains (playlistId.getD "") then (⟨400, none, none⟩, s)
        else (⟨200, some monitor, none⟩, s)

/-- PUT `/monitores/:monitorId/playlists` (server.js lines 242-262): 404
when the monitor id does not resolve; otherwise line 254 assigns
`monitor.playlistId = playlistId`.  `playlistId` is not a path of
monitorSchema and the schema uses Mongoose's default strict mode, so
`save()` persists no change and the response serializes the document from
its unchanged schema paths: the stored `playlist` reference stays as it
was, and the handler answers 200 with the unchanged document. -/
def relinkPlaylist (s : ServerState) (monitorId : Id) (playlistId : Option Id) :
    Response × ServerState :=
  match Monitor.findById s monitorId with
  | none => (⟨404, none, none⟩, s)
  | some monitor =>
    let _unusedBodyField := playlistId
    (⟨200, some monitor, none⟩, s)

/-! Helper lemmas: decimal rendering (`Nat.repr`) is injective, and document
lookup after `save` behaves as expected. -/

/-- Decimal digit characters of a natural number, most significant first. -/
def decimalChars (n : Nat) : List Char :=
  if _h : n < 10 then [Nat.digitChar n]
  else decimalChars (n / 10) ++ [Nat.digitChar (n % 10)]
decreasing_by exact Nat.div_lt_self (by omega) (by omega)

theorem toDigitsCore_eq_decimalChars (fuel : Nat) :
    ∀ (n : Nat) (acc : List Char), n < fuel →
      Nat.toDigitsCore 10 fuel n acc = decimalChars n ++ acc := by
  induction fuel with
  | zero => intro n acc h; omega
  | succ f ih =>
    intro n acc h
    rw [Nat.toDigitsCore]
    by_cases hz : n / 10 = 0
    · have hn : n < 10 := by omega
      rw [decimalChars]
      simp [hz, hn, Nat.mod_eq_of_lt hn]
    · have hn : ¬ n < 10 := by omega
      have hlt1 : n / 10 < n := Nat.div_lt_self (by omega) (by omega)
      have hlt : n / 10 < f := by omega
      rw [decimalChars, dif_neg hn, if_neg hz, ih (n / 10) _ hlt]
      simp [List.append_assoc]

theorem repr_eq_decimalChars (n : Nat) :
    Nat.repr n = (decimalChars n).asString := by
  show (Nat.toDigits 10 n).asString = (decimalChars n).asString
  rw [Nat.toDigits, toDigitsCore_eq_decimalChars (n + 1) n [] (Nat.lt_succ_self n),
    List.append_nil]

theorem decimalChars_ne_nil (n : Nat) : decimalChars n ≠ [] := by
  rw [decimalChars]
  by_cases h : n < 10 <;> simp [h]

theorem decimalChars_last_form (n : Nat) :
    decimalChars n =
      (if 10 ≤ n then decimalChars (n / 10) else []) ++ [Nat.digitChar (n % 10)] := by
  rw [decimalChars]
  by_cases h : n < 10
  · simp [h, Nat.mod_eq_of_lt h, show ¬ 10 ≤ n by omega]
  · simp [h, show 10 ≤ n by omega]

theorem digitChar_inj : ∀ a < 10, ∀ b < 10, Nat.digitChar a = Nat.digitChar b → a = b := by
  decide

theorem decimalChars_injective : ∀ m n : Nat, decimalChars m = decimalChars n → m = n := by
  intro m
  induction m using Nat.strong_induction_on with
  | _ m ih =>
    intro n h
    rw [decimalChars_last_form m, decimalChars_last_form n] at h
    have hparts := List.append_inj' h (by simp)
    have hmod : m % 10 = n % 10 := by
      have := hparts.2
      simp only [List.cons.injEq] at this
      exact digitChar_inj (m % 10) (Nat.mod_lt m (by omega)) (n % 10)
        (Nat.mod_lt n (by omega)) this.1
    by_cases hm : 10 ≤ m
    · by_cases hn : 10 ≤ n
      · have hdiv : m / 10 = n / 10 := by
          apply ih (m / 10) (Nat.div_lt_self (by omega) (by omega))
          have := hparts.1
          simpa [hm, hn] using this
        omega
      · exfalso
        have := hparts.1
        simp only [hm, if_true, hn, if_false] at this
        exact decimalChars_ne_nil (m / 10) this
    · by_cases hn : 10 ≤ n
      · exfalso
        have := hparts.1
        simp only [hm, if_false, hn, if_true] at this
        exact decimalChars_ne_nil (n / 10) this.symm
      · omega

theorem repr_inj (m n : Nat) (h : Nat.repr m = Nat.repr n) : m = n := by
  rw [repr_eq_decimalChars, repr_eq_decimalChars] at h
  exact decimalChars_injective m n (congrArg String.data h)

theorem find?_map_replace {α : Type} (l : List α) (q : α → Bool) (c : α)
    (hc : q c = true) :
    (l.map fun x => if q x then c else x).find? q = (l.find? q).map (fun _ => c) := by
  induction l with
  | nil => rfl
  | cons a t ih =>
    cases h : q a with
    | true => simp [List.map_cons, h, List.find?_cons_of_pos, hc]
    | false => simp [List.map_cons, h, List.find?_cons_of_neg, ih]

theorem findById_savePlaylist (s : ServerState) (p : PlaylistDoc) (id : Id)
    (hid : p.id = id) :
    Playlist.findById (savePlaylist s p) id = (Playlist.findById s id).map (fun _ => p) := by
  unfold Playlist.findById savePlaylist
  simp only [hid]
  exact find?_map_replace s.playlists (fun q => q.id == id) p (by simp [hid])

theorem findById_multerStore (s : ServerState) (files : List (UploadedFile × Nat))
    (id : Id) :
    Playlist.findById (multerStore s files).2 id = Playlist.findById s id := rfl

/-! Concrete documents used to evaluate the handlers. -/

def demoMonitor : MonitorDoc := ⟨"m1", some "Sala", none⟩

def demoMonitorLinked : MonitorDoc := ⟨"m2", some "Hall", some "p5"⟩

def demoItemA : MediaItem := ⟨"i1", "a.png", "/uploads/1000.png"⟩

def demoItemB : MediaItem := ⟨"i2", "b.png", "/uploads/1001.png"⟩

def demoPlaylist : PlaylistDoc := ⟨"p1", some "Lobby", [demoItemA, demoItemB]⟩

def demoState : ServerState :=
  ⟨[demoPlaylist], [demoMonitor, demoMonitorLinked], ["1000.png", "1001.png"]⟩

/-! The claims. -/

/-- C1 (code-bug evidence): with an existing monitor `m1` and a playlist id
present in the body, `link` neither answers Conflict nor appends to any
association set: server.js line 218 reads the non-schema path
`monitor.playlists`, which is `undefined`, the `.includes` call raises a
TypeError, and the request ends in a 500 with the state unchanged. -/
theorem C1_link_throws_500 :
    (linkPlaylist demoState "m1" (some "p1")).1.status = 500 ∧
    (linkPlaylist demoState "m1" (some "p1")).2 = demoState := by
  exact ⟨rfl, rfl⟩

/-- C2 (code-bug evidence): `relink` on the stored monitor `m2` (whose
`playlist` reference is `p5`) with body playlist id `p7` answers 200 with the
unchanged document and persists nothing: the handler writes the non-schema
path `playlistId`, which strict-mode `save()` discards, so the stored
`playlist` reference is still `p5`, not `p7`. -/
theorem C2_relink_does_not_overwrite :
    (relinkPlaylist demoState "m2" (some "p7")).1.status = 200 ∧
    (relinkPlaylist demoState "m2" (some "p7")).1.monitorBody = some demoMonitorLinked ∧
    (relinkPlaylist demoState "m2" (some "p7")).2 = demoState ∧
    demoMonitorLinked.playlist = some "p5" ∧ (some "p5" : Option Id) ≠ some "p7" := by
  refine ⟨rfl, rfl, rfl, rfl, by decide⟩

/-- C8: a `link` request whose body carries no playlist id answers 400 with
the state unchanged, for every state - so the outcome precedes and is
independent of any monitor lookup, and no monitor is modified. -/
theorem C8_missing_playlistId_is_400 (s : ServerState) (monitorId : Id) :
    linkPlaylist s monitorId none = (⟨400, none, none⟩, s) := rfl

/-- C9: deleting a playlist leaves the monitors collection untouched (any
monitor referencing the deleted playlist keeps its now-dangling reference),
while the playlist itself no longer resolves afterwards. -/
theorem C9_delete_playlist_keeps_monitors (s : ServerState) (id : Id) :
    (deletePlaylist s id).2.monitors = s.monitors ∧
    Playlist.findById (deletePlaylist s id).2 id = none := by
  constructor
  · rfl
  · unfold deletePlaylist Playlist.findById
    simp only [List.find?_eq_none, List.mem_filter]
    intro p hp
    simpa using hp.2

/-- C7: removing a media item from a playlist touches only the playlist
document: the uploads directory (hence the stored file behind the removed
item's location) and the monitors are unchanged - the handler never calls any
Media Store delete, orphaning the file. -/
theorem C7_remove_media_keeps_stored_files (s : ServerState)
    (playlistId midiaId : Id) :
    (deleteMidia s playlistId midiaId).2.uploads = s.uploads ∧
    (deleteMidia s playlistId midiaId).2.monitors = s.monitors := by
  unfold deleteMidia
  cases Playlist.findById s playlistId <;> exact ⟨rfl, rfl⟩

/-- C10: creating a monitor with no `name` in the body still answers 201, and
the persisted document has no name and no playlist association. -/
theorem C10_create_monitor_without_name (s : ServerState) (newId : Id) :
    (createMonitor s none newId).1.status = 201 ∧
    (createMonitor s none newId).1.monitorBody = some (MonitorDoc.mk newId none none) ∧
    MonitorDoc.mk newId none none ∈ (createMonitor s none newId).2.monitors := by
  refine ⟨rfl, rfl, ?_⟩
  unfold createMonitor
  simp

/-- C5: deletion behavior differs by entity.  Deleting a playlist answers 200
for every id, and is a no-op when the id does not resolve; deleting a monitor
answers 404 with the state unchanged when the id does not resolve, and 200
with the deleted document when it does. -/
theorem C5_delete_asymmetry (s : ServerState) (id : Id) :
    (deletePlaylist s id).1.status = 200 ∧
    (Playlist.findById s id = none → (deletePlaylist s id).2 = s) ∧
    (Monitor.findById s id = none →
      (deleteMonitor s id).1.status = 404 ∧ (deleteMonitor s id).2 = s) ∧
    (∀ m, Monitor.findById s id = some m →
      (deleteMonitor s id).1.status = 200 ∧
      (deleteMonitor s id).1.monitorBody = some m) := by
  refine ⟨rfl, ?_, ?_, ?_⟩
  · intro h
    unfold deletePlaylist
    have hf : s.playlists.filter (fun p => p.id != id) = s.playlists := by
      apply List.filter_eq_self.mpr
      intro p hp
      have := List.find?_eq_none.mp h p hp
      simpa using this
    simp [hf]
  · intro h
    unfold deleteMonitor
    rw [h]
    exact ⟨rfl, rfl⟩
  · intro m hm
    unfold deleteMonitor
    rw [hm]
    exact ⟨rfl, rfl⟩

/-- Witness for C5 at concrete inputs: id `nope` resolves to no document and
`m1` resolves to the demo monitor. -/
theorem C5_delete_asymmetry_witness :
    (Monitor.findById demoState "nope" = none ∧
      (deleteMonitor demoState "nope").1.status = 404 ∧
      (deleteMonitor demoState "nope").2 = demoState) ∧
    (Monitor.findById demoState "m1" = some demoMonitor ∧
      (deleteMonitor demoState "m1").1.status = 200 ∧
      (deleteMonitor demoState "m1").1.monitorBody = some demoMonitor) := by
  have h1 := (C5_delete_asymmetry demoState "nope").2.2.1 (by decide)
  have h2 := (C5_delete_asymmetry demoState "m1").2.2.2 demoMonitor (by decide)
  exact ⟨⟨by decide, h1.1, h1.2⟩, ⟨by decide, h2.1, h2.2⟩⟩

/-- C4: removing a media item from an existing playlist answers 200 and leaves
the playlist holding exactly the items whose id differs from `midiaId`, in
their original relative order (a `filter`); when no item carries that id the
playlist is unchanged (silent no-op); when the playlist id does not resolve
the handler answers 404 and the state is unchanged. -/
theorem C4_remove_media (s : ServerState) (playlistId midiaId : Id) :
    (∀ p, Playlist.findById s playlistId = some p →
      (deleteMidia s playlistId midiaId).1.status = 200 ∧
      Playlist.findById (deleteMidia s playlistId midiaId).2 playlistId =
        some { p with midias := p.midias.filter (fun m => m.id != midiaId) } ∧
      ((∀ m ∈ p.midias, m.id ≠ midiaId) →
        Playlist.findById (deleteMidia s playlistId midiaId).2 playlistId = some p)) ∧
    (Playlist.findById s playlistId = none →
      (deleteMidia s playlistId midiaId).1.status = 404 ∧
      (deleteMidia s playlistId midiaId).2 = s) := by
  constructor
  · intro p hp
    have hp' : s.playlists.find? (fun q => q.id == playlistId) = some p := hp
    have hbeq := List.find?_some hp'
    have hpid : p.id = playlistId := eq_of_beq hbeq
    have hmain : Playlist.findById (deleteMidia s playlistId midiaId).2 playlistId =
        some { p with midias := p.midias.filter (fun m => m.id != midiaId) } := by
      have hsave := findById_savePlaylist s
        { p with midias := p.midias.filter (fun m => m.id != midiaId) } playlistId hpid
      simp only [deleteMidia, hp]
      rw [hsave, hp]
      rfl
    refine ⟨?_, hmain, ?_⟩
    · unfold deleteMidia
      rw [hp]
    · intro hnone
      have hf : p.midias.filter (fun m => m.id != midiaId) = p.midias := by
        apply List.filter_eq_self.mpr
        intro m hm
        simpa using hnone m hm
      rw [hmain, hf]
  · intro h
    unfold deleteMidia
    rw [h]
    exact ⟨rfl, rfl⟩

/-- Witness for C4 at concrete inputs: removing item `i1` from playlist `p1`
leaves exactly item `i2`; playlist id `nope` does not resolve. -/
theorem C4_remove_media_witness :
    (Playlist.findById demoState "p1" = some demoPlaylist ∧
      (deleteMidia demoState "p1" "i1").1.status = 200 ∧
      Playlist.findById (deleteMidia demoState "p1" "i1").2 "p1" =
        some { demoPlaylist with
                 midias := demoPlaylist.midias.filter (fun m => m.id != "i1") }) ∧
    (Playlist.findById demoState "nope" = none ∧
      (deleteMidia demoState "nope" "i1").1.status = 404) := by
  have h1 := (C4_remove_media demoState "p1" "i1").1 demoPlaylist (by decide)
  have h2 := (C4_remove_media demoState "nope" "i1").2 (by decide)
  exact ⟨⟨by decide, h1.1, h1.2.1⟩, ⟨by decide, h2.1⟩⟩

/-- C3: uploading files to an existing playlist first writes every file into
the uploads directory (multer runs before the handler) and then appends, in
upload order, one media item per file whose `name` is the client's original
filename and whose `url` is `/uploads/` followed by the store-chosen filename;
the media list grows by exactly the number of files.  When the playlist id
does not resolve the handler answers 404 and no playlist changes. -/
theorem C3_attach_media (s : ServerState) (id : Id)
    (files : List (UploadedFile × Nat)) (newIds : List Id)
    (hlen : newIds.length = files.length) :
    (∀ p, Playlist.findById s id = some p →
      (postMidias s id files newIds).1.status = 200 ∧
      Playlist.findById (postMidias s id files newIds).2 id =
        some { p with midias := p.midias ++
          (((multerStore s files).1.zip newIds).map
            (fun fi => MediaItem.mk fi.2 fi.1.originalname
              ("/uploads/" ++ fi.1.filename))) } ∧
      (p.midias ++
          (((multerStore s files).1.zip newIds).map
            (fun fi => MediaItem.mk fi.2 fi.1.originalname
              ("/uploads/" ++ fi.1.filename)))).length
        = p.midias.length + files.length ∧
      (∀ f ∈ (multerStore s files).1,
        f.filename ∈ (postMidias s id files newIds).2.uploads)) ∧
    (Playlist.findById s id = none →
      (postMidias s id files newIds).1.status = 404 ∧
      (postMidias s id files newIds).2.playlists = s.playlists) := by
  constructor
  · intro p hp
    have hp' : s.playlists.find? (fun q => q.id == id) = some p := hp
    have hbeq := List.find?_some hp'
    have hpid : p.id = id := eq_of_beq hbeq
    have hp2 : Playlist.findById (multerStore s files).2 id = some p := hp
    refine ⟨?_, ?_, ?_, ?_⟩
    · simp only [postMidias, uploadMidiasHandler, hp2]
    · have hsave := findById_savePlaylist (multerStore s files).2
        { p with midias := p.midias ++
          (((multerStore s files).1.zip newIds).map
            (fun fi => MediaItem.mk fi.2 fi.1.originalname
              ("/uploads/" ++ fi.1.filename))) } id hpid
      simp only [postMidias, uploadMidiasHandler, hp2]
      rw [hsave, hp2]
      rfl
    · simp only [List.length_append, List.length_map, List.length_zip,
        multerStore, hlen]
      simp
    · intro f hf
      simp only [postMidias, uploadMidiasHandler, hp2]
      show f.filename ∈ (savePlaylist (multerStore s files).2 _).uploads
      show f.filename ∈ (multerStore s files).2.uploads
      unfold multerStore at hf ⊢
      simp only [List.mem_append]
      exact Or.inr (List.mem_map_of_mem _ hf)
  · intro h
    have h2 : Playlist.findById (multerStore s files).2 id = none := h
    simp only [postMidias, uploadMidiasHandler, h2]
    exact ⟨trivial, rfl⟩

def demoUpload : List (UploadedFile × Nat) := [(⟨"c.png"⟩, 2000), (⟨"d.mp4"⟩, 2001)]

def demoNewIds : List Id := ["i3", "i4"]

/-- Witness for C3 at concrete inputs: two files uploaded to playlist `p1`
(previously two items) give a four-item media list, and id `nope` gives
404 with the playlists untouched. -/
theorem C3_attach_media_witness :
    (Playlist.findById demoState "p1" = some demoPlaylist ∧
      (postMidias demoState "p1" demoUpload demoNewIds).1.status = 200 ∧
      (demoPlaylist.midias ++
          (((multerStore demoState demoUpload).1.zip demoNewIds).map
            (fun fi => MediaItem.mk fi.2 fi.1.originalname
              ("/uploads/" ++ fi.1.filename)))).length = 2 + 2) ∧
    (Playlist.findById demoState "nope" = none ∧
      (postMidias demoState "nope" demoUpload demoNewIds).1.status = 404 ∧
      (postMidias demoState "nope" demoUpload demoNewIds).2.playlists =
        demoState.playlists) := by
  have h1 := (C3_attach_media demoState "p1" demoUpload demoNewIds rfl).1
    demoPlaylist (by decide)
  have h2 := (C3_attach_media demoState "nope" demoUpload demoNewIds rfl).2
    (by decide)
  exact ⟨⟨by decide, h1.1, h1.2.2.1⟩, ⟨by decide, h2.1, h2.2⟩⟩

/-- C6 counterexample to the original claim: two distinct files uploaded in
the same millisecond with the same extension receive the same storage name,
so the second disk write overwrites the first - the name is not unique. -/
theorem C6_counterexample_same_millisecond :
    storageName 1000 "a.png" = storageName 1000 "b.png" ∧
    ("a.png" : String) ≠ "b.png" := by
  exact ⟨rfl, by decide⟩

/-- C6 amended: the storage name is `Date.now()` rendered in decimal followed
by the original file's extension, so for two uploads with the same extension
the storage names coincide exactly when the millisecond timestamps coincide:
uploads in distinct milliseconds never collide, while same-millisecond
uploads sharing an extension always do (and then overwrite). -/
theorem C6_storage_name_unique_iff (t1 t2 : Nat) (f1 f2 : String)
    (h : extname f1 = extname f2) :
    storageName t1 f1 = storageName t2 f2 ↔ t1 = t2 := by
  unfold storageName
  rw [h]
  constructor
  · intro heq
    apply repr_inj
    apply String.ext
    have hd := congrArg String.data heq
    rw [String.data_append, String.data_append] at hd
    exact List.append_cancel_right hd
  · intro heq
    rw [heq]

/-- Witness for the amended C6: `a.png` and `b.png` share extension `.png`,
and their storage names at milliseconds 1000 and 1001 coincide exactly when
the timestamps do. -/
theorem C6_storage_name_unique_iff_witness :
    extname "a.png" = extname "b.png" ∧
    (storageName 1000 "a.png" = storageName 1001 "b.png" ↔ 1000 = 1001) :=
  ⟨by decide, C6_storage_name_unique_iff 1000 1001 "a.png" "b.png" (by decide)⟩

end MidiaIndoor
